import Mathlib

/-!
Shallow embedding of the `data-model` repository's schema-composition and
example-generation engine, covering `src/device-data/basal.js` and
`src/device-data/bloodKetone.js`.

Conventions of the embedding:
* JS numbers are modelled as exact rationals `ℚ` (all generated values here
  are short decimals, and the derived-field products/multiples the claims
  speak about are exact in `ℚ`, matching the spec's "to within floating-point
  tolerance" at tolerance zero).
* Randomness is explicit: every value generator consumes draws from a stream
  `r : ℕ → ℚ` of uniform samples in `[0, 1]`; a counter threads through the
  schema walk in field-declaration order.
* JS objects are association lists that preserve insertion order; assignment
  to an existing key overwrites in place, a new key is appended; `delete`
  removes the key.
* Timestamps are integer milliseconds since the epoch; `moment(ts).startOf
  ("hour")` is flooring to the containing hour (whole-hour UTC offset).
* `module.generate`'s unknown-discriminant path (`console.error` +
  `process.exit()`) is modelled as `Except.error`.
-/

namespace DataModel

/-- A scalar JS value appearing in generated records: a string or a number. -/
inductive Atom where
  | str : String → Atom
  | num : ℚ → Atom
deriving DecidableEq, Repr

/-- A JS value stored under a field of a generated record: a scalar, or a
one-level nested object of scalars (the only nesting the generator produces
is the `suppressed` sub-record and the empty-object placeholders). -/
inductive Value where
  | atom : Atom → Value
  | obj : List (String × Atom) → Value
deriving DecidableEq, Repr

/-- A generated record instance: an insertion-ordered key/value mapping. -/
abbrev Record := List (String × Value)

/-- The `instance` slot of a field descriptor: a literal, or one of the
value-generator functions used by the schemas in `src`. -/
inductive Inst where
  | litStr : String → Inst
  | litNum : ℚ → Inst
  | litObj : Inst
  | duration : Inst
  | basalRate : Inst
  | percent : Inst
  | schedule : Inst
  | bkValue : Inst
deriving DecidableEq, Repr

/-- A field descriptor: the example-value generator plus the parts of the
documentation summary the claims refer to (the nested-key whitelist of a
`suppressed` descriptor, and a declared numeric `[min, max]` range when the
source states it as concrete numbers; symbolic bounds are `none`). -/
structure FieldDesc where
  inst : Inst
  nestedKeys : List String
  rmin : Option ℚ
  rmax : Option ℚ
deriving DecidableEq, Repr

/-- Descriptor with no nested keys and no concrete declared range. -/
def fd (i : Inst) : FieldDesc := ⟨i, [], none, none⟩

/-- Descriptor with a concrete declared numeric range. -/
def fdR (i : Inst) (lo hi : ℚ) : FieldDesc := ⟨i, [], some lo, some hi⟩

/-- Descriptor of a nested (`suppressed`) field with its documented
key whitelist. -/
def fdN (i : Inst) (keys : List String) : FieldDesc := ⟨i, keys, none, none⟩

/-- A schema fragment: field name → descriptor, in declaration order. -/
abbrev Fragment := List (String × FieldDesc)

/-! ### Value generators -/

/-- JS `Math.round`: round half toward positive infinity, which is exactly
Mathlib's `round` (`round x = ⌊x + 1/2⌋`). -/
def jsRound (q : ℚ) : ℤ := round q

/-- `percentInstance` from `src/src/device-data/basal.js` lines 38–41:
`Math.round(chance.floating({min:0, max:1})*20)/20`, a float rounded to the
nearest 0.05.  The uniform draw `x ∈ [0,1]` stands for the
`chance.floating` result. -/
def percentInstance (x : ℚ) : ℚ := (jsRound (x * 20) : ℚ) / 20

/-- Modelled from the spec: `chance.floating({min, max, fixed})` of the
external `chance` library — a uniform float in `[lo, hi]` rounded to `fixed`
decimal digits, driven by a uniform draw `x ∈ [0,1]`. -/
def chanceFloating (lo hi : ℚ) (fixed : ℕ) (x : ℚ) : ℚ :=
  (jsRound ((lo + x * (hi - lo)) * 10 ^ fixed) : ℚ) / 10 ^ fixed

/-- Modelled from the spec: `common.duration` (the `common.js` module is not
under `src/`) — an integer number of milliseconds in `[0, 86400000]`, the
declared range of the `temp`/`suspend` duration fields and of the spec's
example scenario. -/
def durationInstance (x : ℚ) : ℚ := (⌊x * 86400000⌋ : ℚ)

/-- Modelled from the spec: `common.basalRateValue` (not under `src/`) — a
floating-point basal rate with device significant figures inside the
documented `[0.0, 20.0]` rate range. -/
def basalRateValue (x : ℚ) : ℚ := chanceFloating 0 20 3 x

/-- Modelled from the spec: `common.SCHEDULE_NAMES` (not under `src/`) — the
fixed list of example basal schedule names. -/
def SCHEDULE_NAMES : List String :=
  ["Weekday", "Weekend", "Vacation", "Stress", "Very Active"]

/-- Pick a pseudo-random element of a string list from a uniform draw. -/
def pickFrom (l : List String) (x : ℚ) : String :=
  l.getD (min (⌊x * l.length⌋.toNat) (l.length - 1)) ""

/-- Run one field's `instance` slot: a literal is used as-is, a generator
consumes the next draw.  Returns the value and the next draw index. -/
def runInst : Inst → (ℕ → ℚ) → ℕ → Value × ℕ
  | .litStr s, _, k => (.atom (.str s), k)
  | .litNum q, _, k => (.atom (.num q), k)
  | .litObj, _, k => (.obj [], k)
  | .duration, r, k => (.atom (.num (durationInstance (r k))), k + 1)
  | .basalRate, r, k => (.atom (.num (basalRateValue (r k))), k + 1)
  | .percent, r, k => (.atom (.num (percentInstance (r k))), k + 1)
  | .schedule, r, k => (.atom (.str (pickFrom SCHEDULE_NAMES (r k))), k + 1)
  | .bkValue, r, k => (.atom (.num (chanceFloating 0 5 1 (r k))), k + 1)

/-! ### Record (JS object) operations -/

/-- Property lookup on a record. -/
def lookupField : Record → String → Option Value
  | [], _ => none
  | (k, v) :: rest, key => if k = key then some v else lookupField rest key

/-- Property lookup on a one-level nested object. -/
def lookupAtom : List (String × Atom) → String → Option Atom
  | [], _ => none
  | (k, v) :: rest, key => if k = key then some v else lookupAtom rest key

/-- JS property assignment: overwrite in place, or append a new key. -/
def setField : Record → String → Value → Record
  | [], key, v => [(key, v)]
  | (k0, v0) :: rest, key, v =>
    if k0 = key then (key, v) :: rest else (k0, v0) :: setField rest key v

/-- JS `delete record.key`. -/
def deleteField (rec : Record) (key : String) : Record :=
  rec.filter (fun p => p.1 ≠ key)

/-- `_.pick(record, keys)`: the sub-object of the scalar-valued fields of
`rec` named in `keys` (every key this repository picks holds a scalar). -/
def pickFields (rec : Record) (keys : List String) : List (String × Atom) :=
  keys.filterMap (fun key =>
    match lookupField rec key with
    | some (.atom a) => some (key, a)
    | _ => none)

/-- JS truthiness of a property access, as used by `if (basal.percent)`:
absent and `0` and `""` are falsy, objects are truthy. -/
def jsTruthy : Option Value → Bool
  | some (.atom (.num q)) => if q = 0 then false else true
  | some (.atom (.str s)) => if s = "" then false else true
  | some (.obj _) => true
  | none => false

/-- Numeric coercion of a property access as used on fields the source knows
to be numbers (`basal.percent`, `suppressed.rate`, `basal.duration`). -/
def numOr0 : Option Value → ℚ
  | some (.atom (.num q)) => q
  | _ => 0

/-! ### Composition engine (`_.assign`) -/

/-- One step of `_.assign`: set a single field of a fragment mapping,
right-biased (an existing key keeps its position and its descriptor is
replaced; a new key is appended). -/
def assignField (m : Fragment) (kv : String × FieldDesc) : Fragment :=
  if m.any (fun p => p.1 = kv.1)
  then m.map (fun p => if p.1 = kv.1 then kv else p)
  else m ++ [kv]

/-- `_.assign(m, n)`: shallow right-biased merge of two fragments. -/
def assignMaps (m n : Fragment) : Fragment := n.foldl assignField m

/-- The composition engine: merge an ordered list of schema fragments into
one effective schema, later fragments overriding earlier ones on field-name
collision (`_.assign({}, f₁, f₂, …)`). -/
def compose (frags : List Fragment) : Fragment := frags.foldl assignMaps []

/-- Whether a fragment declares a descriptor for a field name. -/
def hasKey (f : Fragment) (key : String) : Bool :=
  f.any (fun p => p.1 = key)

/-- Descriptor lookup on a fragment. -/
def lookupDesc : Fragment → String → Option FieldDesc
  | [], _ => none
  | (k, d) :: rest, key => if k = key then some d else lookupDesc rest key

/-! ### The basal schemas (`src/src/device-data/basal.js` lines 56–372),
fields in source declaration order.  Only the parts of each `summary` the
claims refer to are carried: concrete numeric ranges and the nested-key
whitelists (the `expectedDuration` minimum is the symbolic string
`>= duration` in the source, hence `none` here). -/

namespace schemas

/-- `schemas.base`: the `type` field shared by every basal variant. -/
def base : Fragment := [("type", fd (.litStr "basal"))]

/-- `schemas.scheduled` (lines 69–135). -/
def scheduled : Fragment :=
  [("deliveryType", fd (.litStr "scheduled")),
   ("duration", fdR .duration 0 432000000),
   ("expectedDuration", ⟨.litNum 0, [], none, some 432000000⟩),
   ("rate", fd .basalRate),
   ("previous", fd .litObj),
   ("scheduleName", fd .schedule)]

/-- `schemas.temp` (lines 136–255). -/
def temp : Fragment :=
  [("deliveryType", fd (.litStr "temp")),
   ("duration", fdR .duration 0 86400000),
   ("expectedDuration", ⟨.litNum 0, [], none, some 86400000⟩),
   ("percent", fdR .percent 0 10),
   ("previous", fd .litObj),
   ("rate", fdR (.litNum 0) 0 20),
   ("suppressed", fdN .litObj ["type", "deliveryType", "rate", "scheduleName"])]

/-- `schemas.suspend` (lines 256–371). -/
def suspend : Fragment :=
  [("deliveryType", fd (.litStr "suspend")),
   ("duration", fdR .duration 0 86400000),
   ("expectedDuration", ⟨.litNum 0, [], none, some 86400000⟩),
   ("previous", fd .litObj),
   ("suppressed", fdN .litObj
      ["type", "deliveryType", "percent", "rate", "scheduleName", "suppressed"])]

end schemas

/-- `schemas[name]`: dictionary lookup of a variant fragment by name. -/
def schemasLookup (name : String) : Fragment :=
  if name = "scheduled" then schemas.scheduled
  else if name = "temp" then schemas.temp
  else if name = "suspend" then schemas.suspend
  else []

/-! ### The generator (`common.generate`, modelled from the spec) -/

/-- The presentation context of an example (`opts.format`). -/
inductive Format where
  | client
  | ingestion
  | storage
deriving DecidableEq, Repr

/-- Walk the fields of an effective schema in order, resolving each
`instance` slot and threading the draw counter. -/
def genFields : Fragment → (ℕ → ℚ) → ℕ → Record × ℕ
  | [], _, k => ([], k)
  | (name, d) :: rest, r, k =>
    let v := runInst d.inst r k
    let vs := genFields rest r v.2
    ((name, v.1) :: vs.1, vs.2)

/-- Modelled from the spec: the universal record-envelope fields supplied by
the shared common-fields collaborator (`common.js`, not under `src/`) —
timestamp-derived fields and device/upload identifiers, always present
regardless of record type.  `deviceTime` is the local wall-clock time at the
example's fixed whole-hour UTC offset of −420 minutes. -/
def envelopeFields (utc : ℤ) (_fmt : Option Format) : Record :=
  [("deviceTime", .atom (.num ((utc - 420 * 60000 : ℤ) : ℚ))),
   ("time", .atom (.num (utc : ℚ))),
   ("deviceId", .atom (.str "DevId0987654321")),
   ("uploadId", .atom (.str "SampleUploadId"))]

namespace common

/-- Modelled from the spec: `common.generate(schema, utc, format)` (the
`common.js` module is not under `src/`) — resolve every field's example
value in schema order (invoking zero-argument generators, using literals
as-is), then apply the universal envelope fields.  Returns the generated
record and the next draw index. -/
def generate (schema : Fragment) (utc : ℤ) (fmt : Option Format)
    (r : ℕ → ℚ) (k : ℕ) : Record × ℕ :=
  let fields := genFields schema r k
  (fields.1 ++ envelopeFields utc fmt, fields.2)

end common

/-! ### `basal.module.generate` (`src/src/device-data/basal.js` lines 374–403) -/

/-- `module.deliveryTypes = _.values(DELIVERY_TYPES)`. -/
def deliveryTypes : List String := ["scheduled", "temp", "suspend"]

/-- The hard error reported for an unknown discriminant (line 376). -/
def basalSubTypeError : String :=
  "Basal subType (= deliveryType) must be one of: scheduled, temp, suspend!"

/-- `moment(ts).startOf("hour")`: floor the timestamp to the start of its
containing hour (timestamps in ms, whole-hour UTC offset). -/
def startOfHour (t : ℤ) : ℤ := t - t % 3600000

/-- The options object passed to `basal.module.generate`. -/
structure Opts where
  subType : String
  timestamp : ℤ
  format : Option Format
deriving Repr

/-- `basal.module.generate(opts)` (lines 374–403): unknown `subType` is a
hard error (`console.error` + `process.exit()`, modelled as `Except.error`);
otherwise round the timestamp to the start of its hour once, generate from
the composed `[base, variant]` schema, delete `previous`, and for
`temp`/`suspend` attach a suppressed sub-record generated from the
`[base, scheduled]` schema at the same rounded timestamp, restricted by
`_.pick` to `type`/`deliveryType`/`scheduleName`/`rate`; overwrite `rate`
with `percent * suppressed.rate` when `percent` is truthy, and set
`expectedDuration = 1.2 * duration`; for other variants delete a non-null
`expectedDuration`. -/
def basalGenerate (opts : Opts) (r : ℕ → ℚ) : Except String Record :=
  if opts.subType ∉ deliveryTypes then .error basalSubTypeError
  else
    let roundedTimestamp := startOfHour opts.timestamp
    let gen0 := common.generate (compose [schemas.base, schemasLookup opts.subType])
      roundedTimestamp opts.format r 0
    let basal0 := deleteField gen0.1 "previous"
    if opts.subType ∈ ["temp", "suspend"] then
      let suppressed := (common.generate (compose [schemas.base, schemas.scheduled])
        roundedTimestamp none r gen0.2).1
      let basal1 := setField basal0 "suppressed"
        (.obj (pickFields suppressed ["type", "deliveryType", "scheduleName", "rate"]))
      let basal2 :=
        if jsTruthy (lookupField basal1 "percent") then
          setField basal1 "rate"
            (.atom (.num (numOr0 (lookupField basal1 "percent") *
                          numOr0 (lookupField suppressed "rate"))))
        else basal1
      .ok (setField basal2 "expectedDuration"
        (.atom (.num (6 / 5 * numOr0 (lookupField basal2 "duration")))))
    else
      .ok (if (lookupField basal0 "expectedDuration").isSome
           then deleteField basal0 "expectedDuration"
           else basal0)

/-- The raw suppressed sub-record of lines 387–390 as a standalone
definition: the `[base, scheduled]` schema generated at the hour-rounded
timestamp (before `_.pick` restricts it). -/
def suppressedScheduled (t : ℤ) (r : ℕ → ℚ) (k : ℕ) : Record :=
  (common.generate (compose [schemas.base, schemas.scheduled]) (startOfHour t) none r k).1

/-! ### `bloodKetone` (`src/src/device-data/bloodKetone.js`) -/

/-- The `bloodKetone` schema (lines 25–40): literal `type` and `units`,
and a `value` generated by `chance.floating({min: 0, max: 5, fixed: 1})`. -/
def bloodKetoneSchema : Fragment :=
  [("type", fd (.litStr "bloodKetone")),
   ("units", fd (.litStr "mmol/L")),
   ("value", fd .bkValue)]

/-- `bloodKetone.module.generate(utc, format)` (lines 42–45). -/
def bloodKetoneGenerate (utc : ℤ) (fmt : Option Format) (r : ℕ → ℚ) : Record :=
  (common.generate bloodKetoneSchema utc fmt r 0).1

/-! ### Arithmetic helper lemmas -/

/-- `Math.round` maps an argument between two integers to an integer between
them. -/
lemma jsRound_bounds {q : ℚ} {lo hi : ℤ} (h1 : (lo : ℚ) ≤ q) (h2 : q ≤ (hi : ℚ)) :
    lo ≤ jsRound q ∧ jsRound q ≤ hi := by
  unfold jsRound
  rw [round_eq]
  refine ⟨Int.le_floor.mpr (by linarith), ?_⟩
  have hf : ((⌊q + 1 / 2⌋ : ℤ) : ℚ) ≤ q + 1 / 2 := Int.floor_le _
  have hlt : ((⌊q + 1 / 2⌋ : ℤ) : ℚ) < ((hi : ℤ) : ℚ) + 1 := by linarith
  exact Int.lt_add_one_iff.mp (by exact_mod_cast hlt)

/-- Flooring maps an argument between two integers to an integer between
them. -/
lemma floor_bounds {q : ℚ} {lo hi : ℤ} (h1 : (lo : ℚ) ≤ q) (h2 : q ≤ (hi : ℚ)) :
    lo ≤ ⌊q⌋ ∧ ⌊q⌋ ≤ hi := by
  refine ⟨Int.le_floor.mpr h1, ?_⟩
  have := Int.floor_mono h2
  rwa [Int.floor_intCast] at this

/-! ### Symbolic evaluation of `basal.module.generate` per variant -/

/-- Evaluating the generator on the `temp` variant: the record in field
order, with the overwritten `rate` (kept at its literal `0` when the
generated `percent` is falsy) and `expectedDuration = 1.2 × duration`. -/
lemma basalGenerate_temp_eq (t : ℤ) (fmt : Option Format) (r : ℕ → ℚ) :
    basalGenerate ⟨"temp", t, fmt⟩ r = .ok
      [("type", .atom (.str "basal")),
       ("deliveryType", .atom (.str "temp")),
       ("duration", .atom (.num (durationInstance (r 0)))),
       ("expectedDuration", .atom (.num (6 / 5 * durationInstance (r 0)))),
       ("percent", .atom (.num (percentInstance (r 1)))),
       ("rate", .atom (.num (if percentInstance (r 1) = 0 then 0
          else percentInstance (r 1) * basalRateValue (r 3)))),
       ("suppressed", .obj
         [("type", .str "basal"),
          ("deliveryType", .str "scheduled"),
          ("scheduleName", .str (pickFrom SCHEDULE_NAMES (r 4))),
          ("rate", .num (basalRateValue (r 3)))]),
       ("deviceTime", .atom (.num ((startOfHour t - 420 * 60000 : ℤ) : ℚ))),
       ("time", .atom (.num ((startOfHour t : ℤ) : ℚ))),
       ("deviceId", .atom (.str "DevId0987654321")),
       ("uploadId", .atom (.str "SampleUploadId"))] := by
  by_cases hp : percentInstance (r 1) = 0 <;>
    simp [basalGenerate, deliveryTypes, schemasLookup, compose, assignMaps, assignField,
      schemas.base, schemas.temp, schemas.scheduled, common.generate, genFields, runInst,
      envelopeFields, deleteField, setField, lookupField, pickFields, jsTruthy, numOr0,
      fd, fdR, fdN, hp, List.filter]

/-- Evaluating the generator on the `scheduled` variant: no suppressed
sub-record is attached, `previous` and the generated `expectedDuration` are
deleted. -/
lemma basalGenerate_scheduled_eq (t : ℤ) (fmt : Option Format) (r : ℕ → ℚ) :
    basalGenerate ⟨"scheduled", t, fmt⟩ r = .ok
      [("type", .atom (.str "basal")),
       ("deliveryType", .atom (.str "scheduled")),
       ("duration", .atom (.num (durationInstance (r 0)))),
       ("rate", .atom (.num (basalRateValue (r 1)))),
       ("scheduleName", .atom (.str (pickFrom SCHEDULE_NAMES (r 2)))),
       ("deviceTime", .atom (.num ((startOfHour t - 420 * 60000 : ℤ) : ℚ))),
       ("time", .atom (.num ((startOfHour t : ℤ) : ℚ))),
       ("deviceId", .atom (.str "DevId0987654321")),
       ("uploadId", .atom (.str "SampleUploadId"))] := by
  simp [basalGenerate, deliveryTypes, schemasLookup, compose, assignMaps, assignField,
    schemas.base, schemas.scheduled, common.generate, genFields, runInst,
    envelopeFields, deleteField, setField, lookupField, pickFields, jsTruthy, numOr0,
    fd, fdR, fdN, List.filter]

/-- Evaluating the generator on the `suspend` variant: the suppressed
sub-record is generated from the `scheduled` schema and restricted to four
keys, no `rate` is set (there is no `percent`), and
`expectedDuration = 1.2 × duration`. -/
lemma basalGenerate_suspend_eq (t : ℤ) (fmt : Option Format) (r : ℕ → ℚ) :
    basalGenerate ⟨"suspend", t, fmt⟩ r = .ok
      [("type", .atom (.str "basal")),
       ("deliveryType", .atom (.str "suspend")),
       ("duration", .atom (.num (durationInstance (r 0)))),
       ("expectedDuration", .atom (.num (6 / 5 * durationInstance (r 0)))),
       ("suppressed", .obj
         [("type", .str "basal"),
          ("deliveryType", .str "scheduled"),
          ("scheduleName", .str (pickFrom SCHEDULE_NAMES (r 3))),
          ("rate", .num (basalRateValue (r 2)))]),
       ("deviceTime", .atom (.num ((startOfHour t - 420 * 60000 : ℤ) : ℚ))),
       ("time", .atom (.num ((startOfHour t : ℤ) : ℚ))),
       ("deviceId", .atom (.str "DevId0987654321")),
       ("uploadId", .atom (.str "SampleUploadId"))] := by
  simp [basalGenerate, deliveryTypes, schemasLookup, compose, assignMaps, assignField,
    schemas.base, schemas.suspend, schemas.scheduled, common.generate, genFields, runInst,
    envelopeFields, deleteField, setField, lookupField, pickFields, jsTruthy, numOr0,
    fd, fdR, fdN, List.filter]

/-- Evaluating the raw suppressed sub-record of lines 387–390. -/
lemma suppressedScheduled_eq (t : ℤ) (r : ℕ → ℚ) (k : ℕ) :
    suppressedScheduled t r k =
      [("type", .atom (.str "basal")),
       ("deliveryType", .atom (.str "scheduled")),
       ("duration", .atom (.num (durationInstance (r k)))),
       ("expectedDuration", .atom (.num 0)),
       ("rate", .atom (.num (basalRateValue (r (k + 1))))),
       ("previous", .obj []),
       ("scheduleName", .atom (.str (pickFrom SCHEDULE_NAMES (r (k + 2))))),
       ("deviceTime", .atom (.num ((startOfHour t - 420 * 60000 : ℤ) : ℚ))),
       ("time", .atom (.num ((startOfHour t : ℤ) : ℚ))),
       ("deviceId", .atom (.str "DevId0987654321")),
       ("uploadId", .atom (.str "SampleUploadId"))] := by
  simp [suppressedScheduled, compose, assignMaps, assignField, schemas.base,
    schemas.scheduled, common.generate, genFields, runInst, envelopeFields,
    fd, fdR, fdN]

/-- Evaluating the bloodKetone generator. -/
lemma bloodKetoneGenerate_eq (utc : ℤ) (fmt : Option Format) (r : ℕ → ℚ) :
    bloodKetoneGenerate utc fmt r =
      [("type", .atom (.str "bloodKetone")),
       ("units", .atom (.str "mmol/L")),
       ("value", .atom (.num (chanceFloating 0 5 1 (r 0)))),
       ("deviceTime", .atom (.num ((utc - 420 * 60000 : ℤ) : ℚ))),
       ("time", .atom (.num ((utc : ℤ) : ℚ))),
       ("deviceId", .atom (.str "DevId0987654321")),
       ("uploadId", .atom (.str "SampleUploadId"))] := by
  simp [bloodKetoneGenerate, bloodKetoneSchema, common.generate, genFields, runInst,
    envelopeFields, fd]

/-! ### The claims -/

/-- C1: for every basal generation with subType `temp`, the returned
instance's `rate` equals `percent * suppressed.rate` — the product of the
instance's own generated `percent` and the rate of the attached suppressed
sub-record — for every value `percent` can take, including `0` (where the
falsy-guarded overwrite is skipped but the variant's literal `rate`
instance `0` equals `0 * suppressed.rate` anyway). -/
theorem temp_rate_eq_percent_times_suppressedRate (t : ℤ) (fmt : Option Format)
    (r : ℕ → ℚ) :
    ∃ rec p l sr, basalGenerate ⟨"temp", t, fmt⟩ r = Except.ok rec ∧
      lookupField rec "percent" = some (.atom (.num p)) ∧
      lookupField rec "suppressed" = some (.obj l) ∧
      lookupAtom l "rate" = some (.num sr) ∧
      lookupField rec "rate" = some (.atom (.num (p * sr))) := by
  refine ⟨_, percentInstance (r 1),
    [("type", .str "basal"),
     ("deliveryType", .str "scheduled"),
     ("scheduleName", .str (pickFrom SCHEDULE_NAMES (r 4))),
     ("rate", .num (basalRateValue (r 3)))],
    basalRateValue (r 3),
    basalGenerate_temp_eq t fmt r,
    by simp [lookupField], by simp [lookupField], by simp [lookupAtom], ?_⟩
  by_cases hp : percentInstance (r 1) = 0
  · simp [lookupField, hp]
  · simp [lookupField, hp]

/-- C2: `generate({subType: "temp", timestamp})` yields an instance with
`deliveryType = "temp"`, a `duration` in `[0, 86400000]`, a nested
`suppressed` object containing only the keys
`type`/`deliveryType`/`scheduleName`/`rate`, the generated `percent`, and
`rate = percent * suppressed.rate` and `expectedDuration = 1.2 * duration`. -/
theorem generate_temp_example_scenario (t : ℤ) (fmt : Option Format) (r : ℕ → ℚ)
    (hr : ∀ n, 0 ≤ r n ∧ r n ≤ 1) :
    ∃ rec, basalGenerate ⟨"temp", t, fmt⟩ r = Except.ok rec ∧
      lookupField rec "deliveryType" = some (.atom (.str "temp")) ∧
      (∃ d, lookupField rec "duration" = some (.atom (.num d)) ∧
        0 ≤ d ∧ d ≤ 86400000 ∧
        lookupField rec "expectedDuration" = some (.atom (.num (6 / 5 * d)))) ∧
      (∃ l, lookupField rec "suppressed" = some (.obj l) ∧
        l.map Prod.fst = ["type", "deliveryType", "scheduleName", "rate"] ∧
        ∃ p sr, lookupField rec "percent" = some (.atom (.num p)) ∧
          lookupAtom l "rate" = some (.num sr) ∧
          lookupField rec "rate" = some (.atom (.num (p * sr)))) := by
  obtain ⟨h0, h1⟩ := hr 0
  have hq0 : ((0 : ℤ) : ℚ) ≤ r 0 * 86400000 := by
    push_cast
    exact mul_nonneg h0 (by norm_num)
  have hq1 : r 0 * 86400000 ≤ ((86400000 : ℤ) : ℚ) := by
    push_cast
    nlinarith
  obtain ⟨hd0, hd1⟩ := floor_bounds hq0 hq1
  refine ⟨_, basalGenerate_temp_eq t fmt r,
    by simp [lookupField],
    ⟨durationInstance (r 0), by simp [lookupField], ?_, ?_, by simp [lookupField]⟩,
    ⟨[("type", .str "basal"),
      ("deliveryType", .str "scheduled"),
      ("scheduleName", .str (pickFrom SCHEDULE_NAMES (r 4))),
      ("rate", .num (basalRateValue (r 3)))],
      by simp [lookupField], by simp,
      percentInstance (r 1), basalRateValue (r 3),
      by simp [lookupField], by simp [lookupAtom], ?_⟩⟩
  · unfold durationInstance
    exact_mod_cast hd0
  · unfold durationInstance
    exact_mod_cast hd1
  · by_cases hp : percentInstance (r 1) = 0
    · simp [lookupField, hp]
    · simp [lookupField, hp]

/-- C3: an `opts.subType` outside the fixed enumerated delivery types
`scheduled`/`temp`/`suspend` is a hard error reported to the caller
(`console.error` + `process.exit()` in the reference implementation,
`Except.error` here), never a silent default to some variant. -/
theorem unknown_subtype_hard_error (opts : Opts) (r : ℕ → ℚ)
    (h : opts.subType ∉ deliveryTypes) :
    basalGenerate opts r = Except.error basalSubTypeError := by
  unfold basalGenerate
  rw [if_pos h]

/-- C4: composition is deterministic and idempotent — composing the same
ordered fragment list (in particular `[base, variant]`) twice,
independently, yields effective schemas that are equal by structural
comparison.  In this embedding `compose` is a pure function of its ordered
input (matching the side-effect-free `_.assign({}, …)` merge of the
source), so the two independent runs are the same term and the structural
equality is definitional. -/
theorem compose_deterministic_idempotent (A B : Fragment) (fs : List Fragment) :
    compose [A, B] = compose [A, B] ∧ compose fs = compose fs :=
  ⟨rfl, rfl⟩

/-- C5: for every basal generation with a known subType, the input
timestamp is rounded to the start of its containing hour exactly once
(rounding is idempotent, so the single application already yields a fixed
point, and the result is a whole hour), before any field generator runs,
and the outer record's time-derived envelope fields carry that rounded
timestamp; for the variants that attach a suppressed sub-record (`temp` at
draw index 2, `suspend` at draw index 1) the same rounded timestamp feeds
the nested generation, whose time-derived fields agree with the outer
record's, and the attached `suppressed` is exactly the pick of that nested
record. -/
theorem hour_rounding_applied_once_and_propagated (st : String) (t : ℤ)
    (fmt : Option Format) (r : ℕ → ℚ) (h : st ∈ deliveryTypes) :
    startOfHour (startOfHour t) = startOfHour t ∧
    startOfHour t % 3600000 = 0 ∧
    ∃ rec, basalGenerate ⟨st, t, fmt⟩ r = Except.ok rec ∧
      lookupField rec "time" = some (.atom (.num ((startOfHour t : ℤ) : ℚ))) ∧
      lookupField rec "deviceTime" =
        some (.atom (.num ((startOfHour t - 420 * 60000 : ℤ) : ℚ))) ∧
      (st = "temp" →
        lookupField (suppressedScheduled t r 2) "time" = lookupField rec "time" ∧
        lookupField (suppressedScheduled t r 2) "deviceTime" =
          lookupField rec "deviceTime" ∧
        lookupField rec "suppressed" = some (.obj
          (pickFields (suppressedScheduled t r 2)
            ["type", "deliveryType", "scheduleName", "rate"]))) ∧
      (st = "suspend" →
        lookupField (suppressedScheduled t r 1) "time" = lookupField rec "time" ∧
        lookupField (suppressedScheduled t r 1) "deviceTime" =
          lookupField rec "deviceTime" ∧
        lookupField rec "suppressed" = some (.obj
          (pickFields (suppressedScheduled t r 1)
            ["type", "deliveryType", "scheduleName", "rate"]))) := by
  refine ⟨by unfold startOfHour; omega, by unfold startOfHour; omega, ?_⟩
  simp only [deliveryTypes, List.mem_cons, List.not_mem_nil, or_false] at h
  rcases h with h | h | h <;> subst h
  · exact ⟨_, basalGenerate_scheduled_eq t fmt r, by simp [lookupField],
      by simp [lookupField], by simp, by simp⟩
  · refine ⟨_, basalGenerate_temp_eq t fmt r, by simp [lookupField],
      by simp [lookupField], fun _ => ⟨?_, ?_, ?_⟩, by simp⟩
    · rw [suppressedScheduled_eq]
      simp [lookupField]
    · rw [suppressedScheduled_eq]
      simp [lookupField]
    · rw [suppressedScheduled_eq]
      simp [lookupField, pickFields]
  · refine ⟨_, basalGenerate_suspend_eq t fmt r, by simp [lookupField],
      by simp [lookupField], by simp, fun _ => ⟨?_, ?_, ?_⟩⟩
    · rw [suppressedScheduled_eq]
      simp [lookupField]
    · rw [suppressedScheduled_eq]
      simp [lookupField]
    · rw [suppressedScheduled_eq]
      simp [lookupField, pickFields]

/-- C6: a `scheduled` basal generation never contains the
`expectedDuration` key in its output, even though the variant's schema
fragment nominally declares an `expectedDuration` descriptor. -/
theorem scheduled_never_has_expectedDuration (t : ℤ) (fmt : Option Format)
    (r : ℕ → ℚ) :
    ∃ rec, basalGenerate ⟨"scheduled", t, fmt⟩ r = Except.ok rec ∧
      lookupField rec "expectedDuration" = none ∧
      hasKey schemas.scheduled "expectedDuration" = true :=
  ⟨_, basalGenerate_scheduled_eq t fmt r, by simp [lookupField], by decide⟩

/-- C7: for every known subType the returned instance never contains the
`previous` key, even though every variant's schema fragment declares a
`previous` descriptor. -/
theorem previous_never_present (st : String) (t : ℤ) (fmt : Option Format)
    (r : ℕ → ℚ) (h : st ∈ deliveryTypes) :
    ∃ rec, basalGenerate ⟨st, t, fmt⟩ r = Except.ok rec ∧
      lookupField rec "previous" = none ∧
      hasKey (schemasLookup st) "previous" = true := by
  simp only [deliveryTypes, List.mem_cons, List.not_mem_nil, or_false] at h
  rcases h with h | h | h <;> subst h
  · exact ⟨_, basalGenerate_scheduled_eq t fmt r, by simp [lookupField], by decide⟩
  · exact ⟨_, basalGenerate_temp_eq t fmt r, by simp [lookupField], by decide⟩
  · exact ⟨_, basalGenerate_suspend_eq t fmt r, by simp [lookupField], by decide⟩

/-- C8: every value of the `percent` generator is a multiple of 0.05 in the
inclusive interval `[0, 1]`, hence inside the field's declared
`[0.0, 10.0]` range from `percentSummary`. -/
theorem percent_generator_in_declared_range (x : ℚ) (h0 : 0 ≤ x) (h1 : x ≤ 1) :
    (∃ n : ℕ, n ≤ 20 ∧ percentInstance x = (n : ℚ) * (1 / 20)) ∧
    0 ≤ percentInstance x ∧ percentInstance x ≤ 1 ∧
    lookupDesc schemas.temp "percent" = some ⟨.percent, [], some 0, some 10⟩ ∧
    percentInstance x ≤ 10 := by
  have hq0 : ((0 : ℤ) : ℚ) ≤ x * 20 := by
    push_cast
    exact mul_nonneg h0 (by norm_num)
  have hq1 : x * 20 ≤ ((20 : ℤ) : ℚ) := by
    push_cast
    nlinarith
  obtain ⟨hm0, hm1⟩ := jsRound_bounds hq0 hq1
  have hle1 : percentInstance x ≤ 1 := by
    unfold percentInstance
    rw [div_le_one (by norm_num)]
    exact_mod_cast hm1
  refine ⟨⟨(jsRound (x * 20)).toNat, Int.toNat_le.mpr hm1, ?_⟩, ?_, hle1, by decide,
    le_trans hle1 (by norm_num)⟩
  · unfold percentInstance
    have hnat : ((jsRound (x * 20)).toNat : ℚ) = ((jsRound (x * 20) : ℤ) : ℚ) := by
      exact_mod_cast Int.toNat_of_nonneg hm0
    rw [hnat]
    ring
  · unfold percentInstance
    exact div_nonneg (by exact_mod_cast hm0) (by norm_num)

/-- C9: a `suspend` generation's attached `suppressed` sub-record is
generated from the `scheduled` variant's schema: its `deliveryType` is
always `scheduled`, and it never contains a `percent` or a nested
`suppressed` key, even though the `suspend` variant's documented
suppressed-field whitelist includes both. -/
theorem suspend_suppressed_is_scheduled (t : ℤ) (fmt : Option Format) (r : ℕ → ℚ) :
    ∃ rec l, basalGenerate ⟨"suspend", t, fmt⟩ r = Except.ok rec ∧
      lookupField rec "suppressed" = some (.obj l) ∧
      lookupAtom l "deliveryType" = some (.str "scheduled") ∧
      lookupAtom l "percent" = none ∧
      lookupAtom l "suppressed" = none ∧
      (lookupDesc schemas.suspend "suppressed").map FieldDesc.nestedKeys =
        some ["type", "deliveryType", "percent", "rate", "scheduleName",
              "suppressed"] :=
  ⟨_, [("type", .str "basal"),
       ("deliveryType", .str "scheduled"),
       ("scheduleName", .str (pickFrom SCHEDULE_NAMES (r 3))),
       ("rate", .num (basalRateValue (r 2)))],
    basalGenerate_suspend_eq t fmt r,
    by simp [lookupField], by simp [lookupAtom], by simp [lookupAtom],
    by simp [lookupAtom], by decide⟩

/-- C10: every `bloodKetone` instance has `type = "bloodKetone"`,
`units = "mmol/L"`, and a numeric `value` in `[0, 5]` with at most one
decimal digit (ten times the value is an integer). -/
theorem bloodKetone_generate_shape (utc : ℤ) (fmt : Option Format) (r : ℕ → ℚ)
    (h0 : 0 ≤ r 0) (h1 : r 0 ≤ 1) :
    lookupField (bloodKetoneGenerate utc fmt r) "type" =
      some (.atom (.str "bloodKetone")) ∧
    lookupField (bloodKetoneGenerate utc fmt r) "units" =
      some (.atom (.str "mmol/L")) ∧
    ∃ v, lookupField (bloodKetoneGenerate utc fmt r) "value" =
        some (.atom (.num v)) ∧
      0 ≤ v ∧ v ≤ 5 ∧ ∃ z : ℤ, v * 10 = (z : ℚ) := by
  have hq0 : ((0 : ℤ) : ℚ) ≤ (0 + r 0 * (5 - 0)) * 10 ^ 1 := by
    push_cast
    nlinarith
  have hq1 : (0 + r 0 * (5 - 0)) * 10 ^ 1 ≤ ((50 : ℤ) : ℚ) := by
    push_cast
    nlinarith
  obtain ⟨hm0, hm1⟩ := jsRound_bounds hq0 hq1
  rw [bloodKetoneGenerate_eq]
  refine ⟨by simp [lookupField], by simp [lookupField],
    chanceFloating 0 5 1 (r 0), by simp [lookupField], ?_, ?_,
    jsRound ((0 + r 0 * (5 - 0)) * 10 ^ 1), ?_⟩
  · unfold chanceFloating
    exact div_nonneg (by exact_mod_cast hm0) (by norm_num)
  · unfold chanceFloating
    rw [div_le_iff₀ (by norm_num)]
    calc ((jsRound ((0 + r 0 * (5 - 0)) * 10 ^ 1) : ℤ) : ℚ) ≤ ((50 : ℤ) : ℚ) := by
          exact_mod_cast hm1
      _ = 5 * 10 ^ 1 := by norm_num
  · unfold chanceFloating
    field_simp

/-! ### Witnesses for the theorems with hypotheses -/

/-- Witness for C2 at the spec's example timestamp
`2016-05-04T08:18:06.425Z` (= 1462349886425 ms) with the constant draw
stream 1/2. -/
theorem generate_temp_example_scenario_witness :
    (∀ n : ℕ, 0 ≤ (fun _ : ℕ => (1 : ℚ) / 2) n ∧ (fun _ : ℕ => (1 : ℚ) / 2) n ≤ 1) ∧
    (∃ rec, basalGenerate ⟨"temp", 1462349886425, none⟩ (fun _ => (1 : ℚ) / 2) =
        Except.ok rec ∧
      lookupField rec "deliveryType" = some (.atom (.str "temp")) ∧
      (∃ d, lookupField rec "duration" = some (.atom (.num d)) ∧
        0 ≤ d ∧ d ≤ 86400000 ∧
        lookupField rec "expectedDuration" = some (.atom (.num (6 / 5 * d)))) ∧
      (∃ l, lookupField rec "suppressed" = some (.obj l) ∧
        l.map Prod.fst = ["type", "deliveryType", "scheduleName", "rate"] ∧
        ∃ p sr, lookupField rec "percent" = some (.atom (.num p)) ∧
          lookupAtom l "rate" = some (.num sr) ∧
          lookupField rec "rate" = some (.atom (.num (p * sr))))) :=
  ⟨fun _ => by norm_num,
   generate_temp_example_scenario 1462349886425 none (fun _ => (1 : ℚ) / 2)
     (fun _ => by norm_num)⟩

/-- Witness for C5 at the `suspend` variant, the spec's example timestamp
and the constant draw stream 0. -/
theorem hour_rounding_applied_once_and_propagated_witness :
    ("suspend" ∈ deliveryTypes) ∧
    (startOfHour (startOfHour 1462349886425) = startOfHour 1462349886425 ∧
     startOfHour 1462349886425 % 3600000 = 0 ∧
     ∃ rec, basalGenerate ⟨"suspend", 1462349886425, none⟩ (fun _ => 0) =
         Except.ok rec ∧
       lookupField rec "time" =
         some (.atom (.num ((startOfHour 1462349886425 : ℤ) : ℚ))) ∧
       lookupField rec "deviceTime" =
         some (.atom (.num ((startOfHour 1462349886425 - 420 * 60000 : ℤ) : ℚ))) ∧
       ("suspend" = "temp" →
         lookupField (suppressedScheduled 1462349886425 (fun _ => 0) 2) "time" =
           lookupField rec "time" ∧
         lookupField (suppressedScheduled 1462349886425 (fun _ => 0) 2) "deviceTime" =
           lookupField rec "deviceTime" ∧
         lookupField rec "suppressed" = some (.obj
           (pickFields (suppressedScheduled 1462349886425 (fun _ => 0) 2)
             ["type", "deliveryType", "scheduleName", "rate"]))) ∧
       ("suspend" = "suspend" →
         lookupField (suppressedScheduled 1462349886425 (fun _ => 0) 1) "time" =
           lookupField rec "time" ∧
         lookupField (suppressedScheduled 1462349886425 (fun _ => 0) 1) "deviceTime" =
           lookupField rec "deviceTime" ∧
         lookupField rec "suppressed" = some (.obj
           (pickFields (suppressedScheduled 1462349886425 (fun _ => 0) 1)
             ["type", "deliveryType", "scheduleName", "rate"])))) :=
  ⟨by decide,
   hour_rounding_applied_once_and_propagated "suspend" 1462349886425 none
     (fun _ => 0) (by decide)⟩

/-- Witness for C3 at the unknown discriminant `bolus`. -/
theorem unknown_subtype_hard_error_witness :
    ("bolus" ∉ deliveryTypes) ∧
    basalGenerate ⟨"bolus", 0, none⟩ (fun _ => 0) =
      Except.error basalSubTypeError :=
  ⟨by decide,
   unknown_subtype_hard_error ⟨"bolus", 0, none⟩ (fun _ => 0) (by decide)⟩

/-- Witness for C7 at the `temp` variant. -/
theorem previous_never_present_witness :
    ("temp" ∈ deliveryTypes) ∧
    (∃ rec, basalGenerate ⟨"temp", 0, none⟩ (fun _ => 0) = Except.ok rec ∧
      lookupField rec "previous" = none ∧
      hasKey (schemasLookup "temp") "previous" = true) :=
  ⟨by decide, previous_never_present "temp" 0 none (fun _ => 0) (by decide)⟩

/-- Witness for C8 at the draw 1/2 (`percentInstance (1/2) = 0.5`). -/
theorem percent_generator_in_declared_range_witness :
    (0 ≤ (1 : ℚ) / 2 ∧ (1 : ℚ) / 2 ≤ 1) ∧
    ((∃ n : ℕ, n ≤ 20 ∧ percentInstance (1 / 2) = (n : ℚ) * (1 / 20)) ∧
     0 ≤ percentInstance (1 / 2) ∧ percentInstance (1 / 2) ≤ 1 ∧
     lookupDesc schemas.temp "percent" = some ⟨.percent, [], some 0, some 10⟩ ∧
     percentInstance (1 / 2) ≤ 10) :=
  ⟨⟨by norm_num, by norm_num⟩,
   percent_generator_in_declared_range (1 / 2) (by norm_num) (by norm_num)⟩

/-- Witness for C10 at the constant draw stream 1/2 (`value = 2.5`). -/
theorem bloodKetone_generate_shape_witness :
    (0 ≤ (fun _ : ℕ => (1 : ℚ) / 2) 0 ∧ (fun _ : ℕ => (1 : ℚ) / 2) 0 ≤ 1) ∧
    (lookupField (bloodKetoneGenerate 0 none (fun _ => (1 : ℚ) / 2)) "type" =
       some (.atom (.str "bloodKetone")) ∧
     lookupField (bloodKetoneGenerate 0 none (fun _ => (1 : ℚ) / 2)) "units" =
       some (.atom (.str "mmol/L")) ∧
     ∃ v, lookupField (bloodKetoneGenerate 0 none (fun _ => (1 : ℚ) / 2)) "value" =
         some (.atom (.num v)) ∧
       0 ≤ v ∧ v ≤ 5 ∧ ∃ z : ℤ, v * 10 = (z : ℚ)) :=
  ⟨⟨by norm_num, by norm_num⟩,
   bloodKetone_generate_shape 0 none (fun _ => (1 : ℚ) / 2)
     (by norm_num) (by norm_num)⟩

end DataModel
